import Mathlib

/-!
Shallow embedding of the THARA image-creator application:
the Gemini synthesis client (`generateOrEditImage`), the file utilities
(`fileToImageData`, `addWatermark`) and the App component's state handlers
(`handleUseResultAsInput`, `handleRemoveImage`, `handleSubmit`).

JavaScript strings are Lean `String`s; JS `split(',')[1]` (which may be
`undefined`) is modelled as an `Option String`; JS numbers appearing in the
watermark geometry are modelled as exact rationals `ℚ`.
-/

/-! ## JavaScript string primitives -/

/-- Accumulator-passing splitter behind `jsSplitComma`; models how
`String.prototype.split(',')` walks the characters, cutting at each comma. -/
def splitCommaAux : List Char → List Char → List (List Char)
  | [], acc => [acc.reverse]
  | c :: rest, acc =>
      if c = ',' then acc.reverse :: splitCommaAux rest []
      else splitCommaAux rest (c :: acc)

/-- The list of comma-separated segments of a character list. -/
def splitCommaList (l : List Char) : List (List Char) :=
  splitCommaAux l []

/-- Model of JS `s.split(',')`: the comma-separated segments of `s`. -/
def jsSplitComma (s : String) : List String :=
  (splitCommaList s.data).map String.mk

/-- Model of the JS truthiness fallback `a || b` on strings, where `a` may be
`undefined` (`none`) and the empty string is falsy. -/
def jsOrString (a : Option String) (b : String) : String :=
  match a with
  | none => b
  | some s => if s = "" then b else s

/-- Whether the pattern occurs in `s` starting at index `i`. -/
def matchesAt (pat s : List Char) (i : Nat) : Bool :=
  pat.isPrefixOf (s.drop i)

/-- All start indices at which the pattern occurs in `s`, in increasing order. -/
def occurrences (pat s : List Char) : List Nat :=
  (List.range (s.length + 1)).filter (fun i => matchesAt pat s i)

/-- The LineTerminator code points that JS `.` (without the `s` flag) can
never match: LF, CR, LINE SEPARATOR and PARAGRAPH SEPARATOR. -/
def jsLineTerminator (c : Char) : Bool :=
  c == '\n' || c == '\r' || c == '\u2028' || c == '\u2029'

/-- The occurrences of `";base64,"` in `l` at which the pattern
`/data:(.*);base64,/` started at `p` can close: the occurrence begins at or
after `p + 5`, and the capture span in between contains no line terminator,
since JS `.` cannot match one. -/
def jsMatchClosers (l : List Char) (p : Nat) : List Nat :=
  (occurrences ";base64,".data l).filter
    (fun q => decide (p + 5 ≤ q) &&
      ((l.drop (p + 5)).take (q - (p + 5))).all (fun c => !jsLineTerminator c))

/-- Model of JS `s.match(/data:(.*);base64,/)?.[1]`: the regex engine tries
the pattern at each start position from the left; at the first position `p`
where `"data:"` matches and some occurrence of `";base64,"` can close the
match (at or after `p + 5`, with no line terminator in between, as JS `.`
excludes those), it captures the text between `p + 5` and the LAST such
occurrence (greedy `.*` backtracks from the end). Returns `none` when the
string does not match the pattern anywhere (JS `match` returning `null`). -/
def jsMatchDataUrlGroup (s : String) : Option String :=
  let l := s.data
  match (occurrences "data:".data l).filter (fun p => jsMatchClosers l p ≠ []) with
  | [] => none
  | p :: _ =>
      match (jsMatchClosers l p).getLast? with
      | none => none
      | some q => some (String.mk ((l.drop (p + 5)).take (q - (p + 5))))

/-! ## Base64 (browser `FileReader.readAsDataURL` payload) -/

/-- The 64 digits of standard base64. -/
def base64Alphabet : List Char :=
  "ABCDEFGHIJKLMNOPQRSTUVWXYZabcdefghijklmnopqrstuvwxyz0123456789+/".data

/-- The base64 digit for a 6-bit value. -/
def base64Digit (n : Nat) : Char :=
  base64Alphabet.getD (n % 64) 'A'

/-- Standard base64 of a byte sequence, three bytes to four digits, with
`'='` padding on a short final chunk. -/
def base64Chunks : List Nat → List Char
  | [] => []
  | [b1] =>
      let n := (b1 % 256) * 65536
      [base64Digit (n / 262144), base64Digit ((n / 4096) % 64), '=', '=']
  | [b1, b2] =>
      let n := (b1 % 256) * 65536 + (b2 % 256) * 256
      [base64Digit (n / 262144), base64Digit ((n / 4096) % 64),
       base64Digit ((n / 64) % 64), '=']
  | b1 :: b2 :: b3 :: rest =>
      let n := (b1 % 256) * 65536 + (b2 % 256) * 256 + b3 % 256
      base64Digit (n / 262144) :: base64Digit ((n / 4096) % 64) ::
        base64Digit ((n / 64) % 64) :: base64Digit (n % 64) :: base64Chunks rest

/-- Base64 encoding of a byte sequence as a string. -/
def base64Encode (bytes : List Nat) : String :=
  String.mk (base64Chunks bytes)

/-! ## Image acquisition (`src/utils/fileUtils.ts`, `fileToImageData`) -/

/-- A browser `File`: a declared media type plus binary contents. -/
structure File where
  type : String
  contents : List Nat
deriving DecidableEq

/-- The repository's `ImageData` record (`types.ts`, used throughout):
base64 payload, MIME type, and a data-URL display reference. `base64` is an
`Option` because it comes from JS `split(',')[1]`, which is `undefined` when
the string holds no comma. -/
structure ImageData where
  base64 : Option String
  mimeType : String
  url : String
deriving DecidableEq

/-- Modelled browser API (not repository code): `FileReader.readAsDataURL`
resolves with the data URL `"data:" ++ type ++ ";base64," ++ base64(contents)`
per the W3C FileAPI specification. -/
def readAsDataURL (file : File) : String :=
  "data:" ++ file.type ++ ";base64," ++ base64Encode file.contents

/-- `fileToImageData` (fileUtils.ts): reads the file as a data URL, takes the
text after the first comma as the base64 payload, and pairs it with the file's
declared type and the full URL. -/
def fileToImageData (file : File) : ImageData :=
  let url := readAsDataURL file
  let base64 := (jsSplitComma url)[1]?
  { base64 := base64, mimeType := file.type, url := url }

/-! ## Synthesis client (`services/geminiService.ts`, `generateOrEditImage`) -/

/-- Response modality requested from the generation service. -/
inductive Modality where
  | IMAGE
deriving DecidableEq

/-- A content part of the outgoing request: either an inline-data payload
(seed image bytes + media type) or a text part (the prompt). -/
inductive ReqPart where
  | inlineData (data : Option String) (mimeType : String)
  | text (s : String)
deriving DecidableEq

/-- Modelled from the spec: `constants.ts` is not among the sources; the model
identifier it exports is an opaque string constant. -/
def IMAGE_EDIT_MODEL : String := "image-edit-model"

/-- The single request `generateOrEditImage` issues: model name, ordered
content parts, and the response-shape directive (`responseModalities`). -/
structure GenRequest where
  model : String
  parts : List ReqPart
  modalities : List Modality
deriving DecidableEq

/-- An inline-data blob in a response part: base64 bytes plus media type. -/
structure InlineBlob where
  data : String
  mimeType : String
deriving DecidableEq

/-- A content part of the service response; either field may be absent. -/
structure ResPart where
  text : Option String
  inlineData : Option InlineBlob
deriving DecidableEq

/-- A response candidate's content: an optional ordered list of parts. -/
structure Content where
  parts : Option (List ResPart)
deriving DecidableEq

/-- One response candidate with optional content. -/
structure Candidate where
  content : Option Content
deriving DecidableEq

/-- The service response: an optional list of candidates. -/
structure GenResponse where
  candidates : Option (List Candidate)
deriving DecidableEq

/-- The response carrying nothing at all. -/
def emptyGenResponse : GenResponse := { candidates := none }

/-- Model of `response.candidates?.[0]?.content?.parts || []`: each optional
hop collapses to the empty list when absent. -/
def responseParts (r : GenResponse) : List ResPart :=
  match r.candidates with
  | none => []
  | some cs =>
      match cs[0]? with
      | none => []
      | some c =>
          match c.content with
          | none => []
          | some ct => ct.parts.getD []

/-- The remote service as seen by one page: queued responses it will return,
and the log of requests issued to it so far. -/
structure ServiceState where
  pending : List GenResponse
  callLog : List GenRequest
deriving DecidableEq

/-- One network round trip: consume the next queued response (an empty
response when the queue is dry) and record the request in the log. -/
def issueCall (svc : ServiceState) (req : GenRequest) : GenResponse × ServiceState :=
  (svc.pending.headD emptyGenResponse,
   { pending := svc.pending.tail, callLog := svc.callLog ++ [req] })

/-- The `contentParts` array built by `generateOrEditImage`: starts empty, the
seed image's inline data is pushed when present, then the prompt text part. -/
def buildContentParts (prompt : String) (imageData : Option ImageData) : List ReqPart :=
  let contentParts : List ReqPart := []
  let contentParts :=
    match imageData with
    | some d => contentParts ++ [ReqPart.inlineData d.base64 d.mimeType]
    | none => contentParts
  contentParts ++ [ReqPart.text prompt]

/-- The response-scanning loop of `generateOrEditImage`: walk the parts in
order; on the first part whose `inlineData` is present, return the data URL
built from its media type and bytes; with no such part, throw the
no-image error. -/
def extractImage : List ResPart → Except String String
  | [] => Except.error "No image was generated. Please try a different prompt."
  | p :: rest =>
      match p.inlineData with
      | some blob => Except.ok ("data:" ++ blob.mimeType ++ ";base64," ++ blob.data)
      | none => extractImage rest

/-- `generateOrEditImage` (geminiService.ts): build the content parts, issue
exactly one call with the image-only modality directive, then scan the
response's parts for the first inline image. The `Except` error carries the
thrown `Error`'s message. -/
def generateOrEditImage (prompt : String) (imageData : Option ImageData)
    (svc : ServiceState) : Except String String × ServiceState :=
  let contentParts := buildContentParts prompt imageData
  let (response, svc') := issueCall svc
    { model := IMAGE_EDIT_MODEL, parts := contentParts, modalities := [Modality.IMAGE] }
  (extractImage (responseParts response), svc')

/-! ## Watermarking (`src/utils/fileUtils.ts`, `addWatermark`) -/

/-- A decoded bitmap (the `Image` once `onload` has fired): pixel dimensions. -/
structure Bitmap where
  width : Nat
  height : Nat
deriving DecidableEq

/-- Drawing commands executed against the 2D context. -/
inductive CanvasOp where
  | drawImage (img : Bitmap) (dx dy : ℚ)
  | fillText (s : String) (x y : ℚ)
deriving DecidableEq

/-- The off-screen canvas after `addWatermark` has drawn on it: its pixel
dimensions, the 2D-context attributes as last assigned, and the ordered
drawing commands. `fontSizePx` is the numeric size interpolated into
`ctx.font`. -/
structure Canvas where
  width : Nat
  height : Nat
  fontSizePx : ℚ
  fontWeight : String
  fillStyle : String
  textAlign : String
  textBaseline : String
  shadowColor : String
  shadowBlur : ℚ
  shadowOffsetX : ℚ
  shadowOffsetY : ℚ
  ops : List CanvasOp
deriving DecidableEq

/-- `addWatermark` (fileUtils.ts), success path of the promise: given the
decoded bitmap and whether `getContext('2d')` is available, size the canvas
to the bitmap, draw the bitmap at the origin, then overlay the label at the
bottom-right inset by `fontSize * 1.2`. JS numbers are modelled as exact
rationals. -/
def addWatermark (ctxAvailable : Bool) (img : Bitmap) (text : String) :
    Except String Canvas :=
  if !ctxAvailable then Except.error "Could not get canvas context"
  else
    let fontSize : ℚ := max 12 (min ((img.width : ℚ) * 0.02) ((img.height : ℚ) * 0.03))
    let padding : ℚ := fontSize * 1.2
    Except.ok
      { width := img.width
        height := img.height
        fontSizePx := fontSize
        fontWeight := "bold"
        fillStyle := "rgba(255, 255, 255, 0.5)"
        textAlign := "right"
        textBaseline := "bottom"
        shadowColor := "rgba(0, 0, 0, 0.5)"
        shadowBlur := 4
        shadowOffsetX := 0
        shadowOffsetY := 2
        ops := [CanvasOp.drawImage img 0 0,
                CanvasOp.fillText text ((img.width : ℚ) - padding) ((img.height : ℚ) - padding)] }

/-! ## App component state (`App.tsx`) -/

/-- The App component's `useState` fields. -/
structure AppState where
  selectedImage : Option ImageData
  prompt : String
  isLoading : Bool
  loadingMessage : String
  error : Option String
  resultImage : Option String
  modalImageUrl : Option String
deriving DecidableEq

/-- A React state-setter call, one constructor per `useState` setter. -/
inductive Setter where
  | setSelectedImage (v : Option ImageData)
  | setPrompt (v : String)
  | setIsLoading (v : Bool)
  | setLoadingMessage (v : String)
  | setError (v : Option String)
  | setResultImage (v : Option String)
  | setModalImageUrl (v : Option String)
deriving DecidableEq

/-- Applying one setter call to the state. -/
def applySetter (st : AppState) : Setter → AppState
  | Setter.setSelectedImage v => { st with selectedImage := v }
  | Setter.setPrompt v => { st with prompt := v }
  | Setter.setIsLoading v => { st with isLoading := v }
  | Setter.setLoadingMessage v => { st with loadingMessage := v }
  | Setter.setError v => { st with error := v }
  | Setter.setResultImage v => { st with resultImage := v }
  | Setter.setModalImageUrl v => { st with modalImageUrl := v }

/-- Applying a handler's setter calls in order. -/
def applyAll (st : AppState) (l : List Setter) : AppState :=
  l.foldl applySetter st

/-- `handleUseResultAsInput` (App.tsx): the guard `if (!resultImage) return`
returns without any setter call when the result is null OR the falsy empty
string; otherwise it derives the MIME type from the data-URL regex match
(falling back to `'image/png'` via `||`, so also on an empty capture), takes
`split(',')[1]` as the base64 payload, sets the selected image to the record
carrying the old result as its `url`, then clears the result. -/
def handleUseResultAsInput (st : AppState) : List Setter :=
  match st.resultImage with
  | none => []
  | some r =>
      if r = "" then []
      else
        let mimeType := jsOrString (jsMatchDataUrlGroup r) "image/png"
        let base64 := (jsSplitComma r)[1]?
        [Setter.setSelectedImage (some { base64 := base64, mimeType := mimeType, url := r }),
         Setter.setResultImage none]

/-- `handleRemoveImage` (App.tsx): clears the selected image, the result
image and the error, in that order, touching nothing else. -/
def handleRemoveImage : List Setter :=
  [Setter.setSelectedImage none, Setter.setResultImage none, Setter.setError none]

/-- Model of JS `err.message || "An unexpected error occurred."` in the
catch block of `handleSubmit`. -/
def fallbackErrorMessage (msg : String) : String :=
  jsOrString (some msg) "An unexpected error occurred."

/-- `handleSubmit` (App.tsx), big-step over one whole submission: on an empty
prompt it sets the validation error and returns at once (no busy state, no
remote call). Otherwise it enters the busy state, clears error and result,
picks the loading message by whether a seed image is selected, runs
`generateOrEditImage` (one remote call), watermarks the produced image via
the browser layer `wm`, and either stores the watermarked result or stores
the caught error's message; the `finally` block clears the busy flag last. -/
def handleSubmit (st : AppState) (svc : ServiceState)
    (wm : String → Except String String) : List Setter × ServiceState :=
  if st.prompt = "" then
    ([Setter.setError (some "Please enter a prompt.")], svc)
  else
    let loadingMsg :=
      if st.selectedImage.isSome then "Applying your creative edits..."
      else "Generating your vision..."
    let pre := [Setter.setIsLoading true, Setter.setError none,
                Setter.setResultImage none, Setter.setLoadingMessage loadingMsg]
    let (res, svc') := generateOrEditImage st.prompt st.selectedImage svc
    match res with
    | Except.ok newImage =>
        match wm newImage with
        | Except.ok watermarked =>
            (pre ++ [Setter.setResultImage (some watermarked), Setter.setIsLoading false], svc')
        | Except.error e =>
            (pre ++ [Setter.setError (some (fallbackErrorMessage e)), Setter.setIsLoading false], svc')
    | Except.error e =>
        (pre ++ [Setter.setError (some (fallbackErrorMessage e)), Setter.setIsLoading false], svc')

/-- The characters strictly after the first comma, to the end of the list;
`none` when there is no comma. -/
def afterFirstCommaChars : List Char → Option (List Char)
  | [] => none
  | c :: rest => if c = ',' then some rest else afterFirstCommaChars rest

/-- Follows the claim's words (for comparison with the code's
`split(',')[1]`): the text strictly after the FIRST comma, to the end of the
string; `none` when the string holds no comma. -/
def claimTextAfterFirstComma (s : String) : Option String :=
  (afterFirstCommaChars s.data).map String.mk

/-- The `ImageData` value `handleUseResultAsInput` builds from a result
string: bytes from `split(',')[1]`, MIME type from the data-URL regex match
with the `'image/png'` fallback, and the result string itself as the url. -/
def promotedInput (r : String) : ImageData :=
  { base64 := (jsSplitComma r)[1]?,
    mimeType := jsOrString (jsMatchDataUrlGroup r) "image/png",
    url := r }

/-! ## Concrete fixtures used by witnesses and counterexamples -/

/-- A text-only response part. -/
def c1TextPart : ResPart := { text := some "Here you go", inlineData := none }

/-- An inline-image response part carrying the bytes `"QUJD"`. -/
def c1ImagePart : ResPart :=
  { text := none, inlineData := some { data := "QUJD", mimeType := "image/png" } }

/-- A service with one queued response: a text part followed by an image part. -/
def c1Service : ServiceState :=
  { pending := [{ candidates := some [{ content := some { parts := some [c1TextPart, c1ImagePart] } }] }],
    callLog := [] }

/-- A response part whose inline data carries EMPTY bytes. -/
def c3EmptyBlobPart : ResPart :=
  { text := none, inlineData := some { data := "", mimeType := "image/png" } }

/-- A service whose queued response carries an inline part with EMPTY data. -/
def c3EmptyBlobService : ServiceState :=
  { pending := [{ candidates := some [{ content := some { parts := some [c3EmptyBlobPart] } }] }],
    callLog := [] }

/-- A response part whose inline data carries the non-empty bytes `"Zm9v"`. -/
def c3GoodPart : ResPart :=
  { text := none, inlineData := some { data := "Zm9v", mimeType := "image/jpeg" } }

/-- A service whose queued response carries one inline part with non-empty
bytes. -/
def c3GoodService : ServiceState :=
  { pending := [{ candidates := some [{ content := some { parts := some [c3GoodPart] } }] }],
    callLog := [] }

/-- An app state with a non-empty prompt and a result on screen. -/
def c4State : AppState :=
  { selectedImage := none, prompt := "hello", isLoading := true,
    loadingMessage := "working", error := none, resultImage := some "data:image/png;base64,QUJD",
    modalImageUrl := some "data:image/png;base64,QUJD" }

/-- An app state holding a well-formed data-URL result. -/
def c5State : AppState :=
  { selectedImage := none, prompt := "make it blue", isLoading := false,
    loadingMessage := "", error := none, resultImage := some "data:image/png;base64,QUJD",
    modalImageUrl := none }

/-- An app state whose result is the non-null but FALSY empty string. -/
def c5EmptyState : AppState :=
  { selectedImage := none, prompt := "make it blue", isLoading := false,
    loadingMessage := "", error := none, resultImage := some "",
    modalImageUrl := none }

/-- An app state whose prompt is empty at submission time. -/
def c9State : AppState :=
  { selectedImage := none, prompt := "", isLoading := false,
    loadingMessage := "", error := none, resultImage := none, modalImageUrl := none }

/-- An app state whose result is a string with two commas and no data-URL
shape. -/
def c10State : AppState :=
  { selectedImage := none, prompt := "p", isLoading := false,
    loadingMessage := "", error := none, resultImage := some "x,b,c",
    modalImageUrl := none }

/-- An app state whose result is a plain string with no comma at all. -/
def c10WitnessState : AppState :=
  { selectedImage := none, prompt := "p", isLoading := false,
    loadingMessage := "", error := none, resultImage := some "notadataurl",
    modalImageUrl := none }

/-! ## Lemmas about the split model -/

/-- A comma-free list splits into a single segment. -/
theorem splitCommaAux_of_not_mem (l : List Char) (h : ',' ∉ l) :
    ∀ acc, splitCommaAux l acc = [acc.reverse ++ l] := by
  induction l with
  | nil => intro acc; simp [splitCommaAux]
  | cons c rest ih =>
      intro acc
      have hc : c ≠ ',' := fun hc => h (hc ▸ List.mem_cons_self c rest)
      have hrest : ',' ∉ rest := fun hm => h (List.mem_cons_of_mem c hm)
      rw [splitCommaAux, if_neg hc, ih hrest]
      simp

/-- Splitting a list whose head segment is comma-free peels off exactly that
segment at the first comma. -/
theorem splitCommaAux_append (pre suf : List Char) (h : ',' ∉ pre) :
    ∀ acc, splitCommaAux (pre ++ ',' :: suf) acc =
      (acc.reverse ++ pre) :: splitCommaAux suf [] := by
  induction pre with
  | nil => intro acc; simp [splitCommaAux]
  | cons c rest ih =>
      intro acc
      have hc : c ≠ ',' := fun hc => h (hc ▸ List.mem_cons_self c rest)
      have hrest : ',' ∉ rest := fun hm => h (List.mem_cons_of_mem c hm)
      rw [List.cons_append, splitCommaAux, if_neg hc, ih hrest]
      simp

/-- A list with exactly one comma splits into the two surrounding segments. -/
theorem splitCommaList_pair (pre suf : List Char) (hpre : ',' ∉ pre)
    (hsuf : ',' ∉ suf) : splitCommaList (pre ++ ',' :: suf) = [pre, suf] := by
  rw [splitCommaList, splitCommaAux_append pre suf hpre,
    splitCommaAux_of_not_mem suf hsuf]
  simp

/-! ## Lemmas about base64 -/

/-- The comma is not a base64 digit. -/
theorem comma_not_mem_base64Alphabet : ',' ∉ base64Alphabet := by decide

/-- No 6-bit value encodes to a comma. -/
theorem comma_ne_base64Digit (n : Nat) : ',' ≠ base64Digit n := by
  intro hc
  have hlt : n % 64 < base64Alphabet.length := Nat.mod_lt _ (by decide)
  have hm : base64Digit n ∈ base64Alphabet := by
    rw [base64Digit, List.getD_eq_getElem _ _ hlt]
    exact List.getElem_mem hlt
  exact comma_not_mem_base64Alphabet (hc ▸ hm)

/-- Base64 output never contains a comma. -/
theorem comma_not_mem_base64Chunks (bytes : List Nat) :
    ',' ∉ base64Chunks bytes := by
  induction bytes using base64Chunks.induct with
  | case1 => simp [base64Chunks]
  | case2 b1 => simp [base64Chunks, comma_ne_base64Digit]
  | case3 b1 b2 => simp [base64Chunks, comma_ne_base64Digit]
  | case4 b1 b2 b3 rest ih =>
      simp [base64Chunks, comma_ne_base64Digit]
      exact ih

/-- C2: for every valid image file (one whose declared media type holds no
comma), `fileToImageData` resolves with an `ImageData` whose `url` equals
`"data:" + mimeType + ";base64," + base64` exactly, the `base64` field being
present. -/
theorem fileToImageData_displayReference (file : File)
    (h : ',' ∉ file.type.data) :
    ∃ b, (fileToImageData file).base64 = some b ∧
      (fileToImageData file).url =
        "data:" ++ (fileToImageData file).mimeType ++ ";base64," ++ b := by
  refine ⟨base64Encode file.contents, ?_, rfl⟩
  show (jsSplitComma (readAsDataURL file))[1]? = some (base64Encode file.contents)
  have hdata : (readAsDataURL file).data =
      ("data:".data ++ file.type.data ++ ";base64".data) ++
        ',' :: (base64Encode file.contents).data := by
    simp [readAsDataURL, String.data_append]
  have hpre : ',' ∉ "data:".data ++ file.type.data ++ ";base64".data := by
    intro hm
    rcases List.mem_append.mp hm with hm' | hm'
    · rcases List.mem_append.mp hm' with hm'' | hm''
      · exact absurd hm'' (by decide)
      · exact h hm''
    · exact absurd hm' (by decide)
  have hsuf : ',' ∉ (base64Encode file.contents).data :=
    comma_not_mem_base64Chunks file.contents
  rw [jsSplitComma, hdata, splitCommaList_pair _ _ hpre hsuf]
  rfl

/-- Witness for C2 at a concrete PNG file. -/
theorem fileToImageData_displayReference_witness :
    ∃ b, (fileToImageData { type := "image/png", contents := [137, 80, 78] }).base64 = some b ∧
      (fileToImageData { type := "image/png", contents := [137, 80, 78] }).url =
        "data:" ++ (fileToImageData { type := "image/png", contents := [137, 80, 78] }).mimeType ++
          ";base64," ++ b :=
  fileToImageData_displayReference { type := "image/png", contents := [137, 80, 78] } (by decide)

/-! ## Lemmas about the response scan -/

/-- With no inline data anywhere, the scan throws the no-image error. -/
theorem extractImage_of_all_none (l : List ResPart)
    (h : ∀ p ∈ l, p.inlineData = none) :
    extractImage l = Except.error "No image was generated. Please try a different prompt." := by
  induction l with
  | nil => rfl
  | cons p rest ih =>
      have hp : p.inlineData = none := h p (List.mem_cons_self p rest)
      rw [extractImage, hp]
      exact ih fun q hq => h q (List.mem_cons_of_mem p hq)

/-- The scan returns the data URL of the first part whose inline data is
present, skipping any earlier parts without it. -/
theorem extractImage_first (pre : List ResPart) (part : ResPart)
    (suf : List ResPart) (blob : InlineBlob)
    (hpre : ∀ q ∈ pre, q.inlineData = none) (hpart : part.inlineData = some blob) :
    extractImage (pre ++ part :: suf) =
      Except.ok ("data:" ++ blob.mimeType ++ ";base64," ++ blob.data) := by
  induction pre with
  | nil => rw [List.nil_append, extractImage, hpart]
  | cons q rest ih =>
      have hq : q.inlineData = none := hpre q (List.mem_cons_self q rest)
      rw [List.cons_append, extractImage, hq]
      exact ih fun q' hq' => hpre q' (List.mem_cons_of_mem q hq')

/-- C1: for every response from the remote service, `generateOrEditImage`
scans the returned content parts in order and returns the first part carrying
inline image bytes, repackaged as the data URL built from that part's media
type and bytes; when no part carries inline bytes it fails with the message
"No image was generated. Please try a different prompt.". -/
theorem generateOrEditImage_scans_parts (prompt : String) (img : Option ImageData)
    (svc : ServiceState) (resp : GenResponse) (rest : List GenResponse)
    (hp : svc.pending = resp :: rest) :
    ((∀ p ∈ responseParts resp, p.inlineData = none) →
        (generateOrEditImage prompt img svc).1 =
          Except.error "No image was generated. Please try a different prompt.") ∧
    (∀ pre part suf blob, responseParts resp = pre ++ part :: suf →
        (∀ q ∈ pre, q.inlineData = none) → part.inlineData = some blob →
        (generateOrEditImage prompt img svc).1 =
          Except.ok ("data:" ++ blob.mimeType ++ ";base64," ++ blob.data)) := by
  have hr : (generateOrEditImage prompt img svc).1 = extractImage (responseParts resp) := by
    simp [generateOrEditImage, issueCall, hp]
  constructor
  · intro h
    rw [hr]
    exact extractImage_of_all_none _ h
  · intro pre part suf blob hparts hpre hpart
    rw [hr, hparts]
    exact extractImage_first pre part suf blob hpre hpart

/-- Witness for C1: on a queued response holding a text part and then an
inline-image part, the synthesis result is the image part's data URL. -/
theorem generateOrEditImage_scans_parts_witness :
    (generateOrEditImage "a cat" none c1Service).1 =
      Except.ok "data:image/png;base64,QUJD" :=
  (generateOrEditImage_scans_parts "a cat" none c1Service _ [] rfl).2
    [c1TextPart] c1ImagePart [] { data := "QUJD", mimeType := "image/png" }
    rfl (by decide) rfl

/-- C8: every invocation of `generateOrEditImage` issues exactly one remote
call, whose request holds, in order, the seed image's inline payload when a
seed is present followed by the prompt text part, under the image-only
response-modality directive. -/
theorem generateOrEditImage_request_shape (prompt : String) (img : Option ImageData)
    (svc : ServiceState) :
    (generateOrEditImage prompt img svc).2.callLog =
      svc.callLog ++
        [{ model := IMAGE_EDIT_MODEL,
           parts := (img.map fun d => ReqPart.inlineData d.base64 d.mimeType).toList ++
             [ReqPart.text prompt],
           modalities := [Modality.IMAGE] }] := by
  cases img <;> simp [generateOrEditImage, issueCall, buildContentParts]

/-- Counterexample for C3: a service response whose first inline part carries
empty data makes `generateOrEditImage` return a SUCCESS whose data URL has an
empty bytes segment after the comma. -/
theorem generateOrEditImage_empty_bytes_counterexample :
    (generateOrEditImage "a red balloon" none c3EmptyBlobService).1 =
      Except.ok "data:image/png;base64," ∧
    (jsSplitComma "data:image/png;base64,")[1]? = some "" :=
  ⟨by rfl, by decide⟩

/-- C3 (amended): a success of `generateOrEditImage` carries exactly the
bytes of the first inline part of the service response; in particular, when
that part's data is non-empty, the success is not the empty-bytes data URL. -/
theorem generateOrEditImage_bytes_from_first_inline (prompt : String)
    (img : Option ImageData) (svc : ServiceState) (resp : GenResponse)
    (rest : List GenResponse) (pre : List ResPart) (part : ResPart)
    (suf : List ResPart) (blob : InlineBlob)
    (hp : svc.pending = resp :: rest)
    (hparts : responseParts resp = pre ++ part :: suf)
    (hpre : ∀ q ∈ pre, q.inlineData = none)
    (hpart : part.inlineData = some blob)
    (hne : blob.data ≠ "") :
    (generateOrEditImage prompt img svc).1 =
      Except.ok ("data:" ++ blob.mimeType ++ ";base64," ++ blob.data) ∧
    "data:" ++ blob.mimeType ++ ";base64," ++ blob.data ≠
      "data:" ++ blob.mimeType ++ ";base64," := by
  refine ⟨(generateOrEditImage_scans_parts prompt img svc resp rest hp).2
    pre part suf blob hparts hpre hpart, ?_⟩
  intro hcontra
  apply hne
  have h1 := congrArg String.data hcontra
  simp [String.data_append] at h1
  exact String.ext h1

/-- Witness for C3 (amended): a non-empty inline payload yields a success
whose data URL differs from the empty-bytes one. -/
theorem generateOrEditImage_bytes_from_first_inline_witness :
    (generateOrEditImage "a sunset" none c3GoodService).1 =
      Except.ok ("data:" ++ "image/jpeg" ++ ";base64," ++ "Zm9v") ∧
    "data:" ++ "image/jpeg" ++ ";base64," ++ "Zm9v" ≠
      "data:" ++ "image/jpeg" ++ ";base64," :=
  generateOrEditImage_bytes_from_first_inline "a sunset" none c3GoodService _ []
    [] c3GoodPart [] { data := "Zm9v", mimeType := "image/jpeg" }
    (by rfl) (by rfl) (by decide) (by rfl) (by decide)

/-! ## Watermark lemmas -/

/-- On the success path, the canvas font size is the clamped formula from the
source. -/
theorem addWatermark_ok_fontSizePx (b : Bool) (img : Bitmap) (text : String)
    (c : Canvas) (h : addWatermark b img text = Except.ok c) :
    c.fontSizePx = max 12 (min ((img.width : ℚ) * 0.02) ((img.height : ℚ) * 0.03)) := by
  cases b with
  | false => simp [addWatermark] at h
  | true =>
      simp [addWatermark] at h
      subst h
      rfl

/-- C6: the watermark font size equals `max(12, min(width*0.02, height*0.03))`
for every image size; in particular width 1000 and height 500 give 15, and
width 100 and height 100 give 12. -/
theorem addWatermark_fontSize (b : Bool) (img : Bitmap) (text : String)
    (c : Canvas) (h : addWatermark b img text = Except.ok c) :
    c.fontSizePx = max 12 (min ((img.width : ℚ) * 0.02) ((img.height : ℚ) * 0.03)) ∧
    (img.width = 1000 → img.height = 500 → c.fontSizePx = 15) ∧
    (img.width = 100 → img.height = 100 → c.fontSizePx = 12) := by
  have hfs := addWatermark_ok_fontSizePx b img text c h
  refine ⟨hfs, fun hw hh => ?_, fun hw hh => ?_⟩
  · rw [hfs, hw, hh]
    norm_num
  · rw [hfs, hw, hh]
    norm_num

/-- Witness for C6 at a 1000-by-500 bitmap: the recorded font size is 15. -/
theorem addWatermark_fontSize_witness :
    ∃ c, addWatermark true { width := 1000, height := 500 } "T H A R A" = Except.ok c ∧
      c.fontSizePx = 15 := by
  refine ⟨_, rfl, ?_⟩
  exact (addWatermark_fontSize true { width := 1000, height := 500 } "T H A R A" _ rfl).2.1
    rfl rfl

/-- C7: for every decodable input image, the watermark output surface's pixel
dimensions equal the input bitmap's dimensions exactly. -/
theorem addWatermark_preserves_dimensions (b : Bool) (img : Bitmap)
    (text : String) (c : Canvas) (h : addWatermark b img text = Except.ok c) :
    c.width = img.width ∧ c.height = img.height := by
  cases b with
  | false => simp [addWatermark] at h
  | true =>
      simp [addWatermark] at h
      subst h
      exact ⟨rfl, rfl⟩

/-- Witness for C7 at a 640-by-480 bitmap. -/
theorem addWatermark_preserves_dimensions_witness :
    ∃ c, addWatermark true { width := 640, height := 480 } "T H A R A" = Except.ok c ∧
      c.width = 640 ∧ c.height = 480 := by
  refine ⟨_, rfl, ?_⟩
  exact addWatermark_preserves_dimensions true { width := 640, height := 480 } "T H A R A" _ rfl

/-! ## App handler claims -/

/-- Counterexample for C4: the remove-image action leaves the prompt, the
busy flag, the busy message and the viewer image untouched, so a state with
those fields populated is NOT reset to all-empty. -/
theorem handleRemoveImage_counterexample :
    (applyAll c4State handleRemoveImage).prompt ≠ "" ∧
    (applyAll c4State handleRemoveImage).isLoading ≠ false ∧
    (applyAll c4State handleRemoveImage).loadingMessage ≠ "" ∧
    (applyAll c4State handleRemoveImage).modalImageUrl ≠ none := by decide

/-- C4 (amended): the remove-image action clears exactly the selected image,
the result image and the error; the prompt, busy flag, busy message and
viewer image are left unchanged. -/
theorem handleRemoveImage_clears (st : AppState) :
    applyAll st handleRemoveImage =
      { st with selectedImage := none, resultImage := none, error := none } ∧
    (applyAll st handleRemoveImage).prompt = st.prompt ∧
    (applyAll st handleRemoveImage).isLoading = st.isLoading ∧
    (applyAll st handleRemoveImage).loadingMessage = st.loadingMessage ∧
    (applyAll st handleRemoveImage).modalImageUrl = st.modalImageUrl :=
  ⟨rfl, rfl, rfl, rfl, rfl⟩

/-- Counterexample for C5: at the non-null but falsy result `some ""` the JS
guard `if (!resultImage) return` fires, so the handler emits no setter call:
the selected image is NOT set from the result and the result is NOT cleared
to null, refuting the claim for arbitrary non-null results. -/
theorem handleUseResultAsInput_empty_result_counterexample :
    c5EmptyState.resultImage = some "" ∧
    handleUseResultAsInput c5EmptyState = [] ∧
    (applyAll c5EmptyState (handleUseResultAsInput c5EmptyState)).selectedImage = none ∧
    (applyAll c5EmptyState (handleUseResultAsInput c5EmptyState)).resultImage = some "" := by
  decide

/-- C5 (amended): promoting a non-null, NON-EMPTY result into the input (the
JS falsy guard also returns early on the empty string) sets the selected
image from the result (its url being the old result string), then clears the
result; the prompt and every other field are unchanged, and no field outside
the selected image holds the old result value when none did before. -/
theorem handleUseResultAsInput_promotes (st : AppState) (r : String)
    (hr : st.resultImage = some r) (hne : r ≠ "")
    (hp : st.prompt ≠ r) (he : st.error ≠ some r)
    (hl : st.loadingMessage ≠ r) (hm : st.modalImageUrl ≠ some r) :
    (applyAll st (handleUseResultAsInput st)).selectedImage =
      some { base64 := (jsSplitComma r)[1]?,
             mimeType := jsOrString (jsMatchDataUrlGroup r) "image/png", url := r } ∧
    (applyAll st (handleUseResultAsInput st)).resultImage = none ∧
    (applyAll st (handleUseResultAsInput st)).prompt = st.prompt ∧
    (applyAll st (handleUseResultAsInput st)).isLoading = st.isLoading ∧
    (applyAll st (handleUseResultAsInput st)).loadingMessage = st.loadingMessage ∧
    (applyAll st (handleUseResultAsInput st)).error = st.error ∧
    (applyAll st (handleUseResultAsInput st)).modalImageUrl = st.modalImageUrl ∧
    (applyAll st (handleUseResultAsInput st)).prompt ≠ r ∧
    (applyAll st (handleUseResultAsInput st)).error ≠ some r ∧
    (applyAll st (handleUseResultAsInput st)).loadingMessage ≠ r ∧
    (applyAll st (handleUseResultAsInput st)).modalImageUrl ≠ some r := by
  have ht : handleUseResultAsInput st =
      [Setter.setSelectedImage (some (promotedInput r)), Setter.setResultImage none] := by
    rw [handleUseResultAsInput, hr]
    simp [hne, promotedInput]
  rw [ht]
  exact ⟨rfl, rfl, rfl, rfl, rfl, rfl, rfl, hp, he, hl, hm⟩

/-- Witness for C5 on a state holding a well-formed data-URL result. -/
theorem handleUseResultAsInput_promotes_witness :
    (applyAll c5State (handleUseResultAsInput c5State)).selectedImage =
      some { base64 := (jsSplitComma "data:image/png;base64,QUJD")[1]?,
             mimeType := jsOrString (jsMatchDataUrlGroup "data:image/png;base64,QUJD") "image/png",
             url := "data:image/png;base64,QUJD" } ∧
    (applyAll c5State (handleUseResultAsInput c5State)).resultImage = none ∧
    (applyAll c5State (handleUseResultAsInput c5State)).prompt = "make it blue" :=
  have h := handleUseResultAsInput_promotes c5State "data:image/png;base64,QUJD"
    rfl (by decide) (by decide) (by decide) (by decide) (by decide)
  ⟨h.1, h.2.1, h.2.2.1⟩

/-- C9: on an empty prompt, `handleSubmit` only sets the validation error
"Please enter a prompt." — the busy flag is untouched and no remote call is
issued (the service call log is unchanged). -/
theorem handleSubmit_empty_prompt (st : AppState) (svc : ServiceState)
    (wm : String → Except String String) (h : st.prompt = "") :
    handleSubmit st svc wm = ([Setter.setError (some "Please enter a prompt.")], svc) ∧
    applyAll st (handleSubmit st svc wm).1 = { st with error := some "Please enter a prompt." } ∧
    (applyAll st (handleSubmit st svc wm).1).isLoading = st.isLoading ∧
    (handleSubmit st svc wm).2.callLog = svc.callLog := by
  have h1 : handleSubmit st svc wm = ([Setter.setError (some "Please enter a prompt.")], svc) := by
    rw [handleSubmit, if_pos h]
  exact ⟨h1, by rw [h1]; rfl, by rw [h1]; rfl, by rw [h1]⟩

/-- Witness for C9 at a concrete empty-prompt state. -/
theorem handleSubmit_empty_prompt_witness :
    handleSubmit c9State { pending := [], callLog := [] } (fun s => Except.ok s) =
      ([Setter.setError (some "Please enter a prompt.")], { pending := [], callLog := [] }) :=
  (handleSubmit_empty_prompt c9State { pending := [], callLog := [] }
    (fun s => Except.ok s) rfl).1

/-- Counterexample for C10: on the non-matching result `"x,b,c"`, the
promoted bytes are `"b"` — the segment between the first two commas — while
the text after the first comma is `"b,c"`. -/
theorem handleUseResultAsInput_after_comma_counterexample :
    (applyAll c10State (handleUseResultAsInput c10State)).selectedImage =
      some { base64 := some "b", mimeType := "image/png", url := "x,b,c" } ∧
    claimTextAfterFirstComma "x,b,c" = some "b,c" ∧
    some "b" ≠ some "b,c" := by decide

/-- C10 (amended): when the result is a NON-EMPTY string (the JS falsy guard
returns early on the empty string) that does not match the data-URL pattern,
it is still promoted: the MIME type falls back to `"image/png"`, the bytes
are `split(',')[1]` — the segment between the first comma and the second (or
the end), `none` when there is no comma — and the url is the old result
string unchanged; the result is then cleared. -/
theorem handleUseResultAsInput_non_data_url (st : AppState) (r : String)
    (hr : st.resultImage = some r) (hne : r ≠ "")
    (hnm : jsMatchDataUrlGroup r = none) :
    (applyAll st (handleUseResultAsInput st)).selectedImage =
      some { base64 := (jsSplitComma r)[1]?, mimeType := "image/png", url := r } ∧
    (applyAll st (handleUseResultAsInput st)).resultImage = none := by
  have ht : handleUseResultAsInput st =
      [Setter.setSelectedImage (some (promotedInput r)), Setter.setResultImage none] := by
    rw [handleUseResultAsInput, hr]
    simp [hne, promotedInput]
  have hpi : promotedInput r =
      { base64 := (jsSplitComma r)[1]?, mimeType := "image/png", url := r } := by
    rw [promotedInput, hnm]
    rfl
  rw [ht, hpi]
  exact ⟨rfl, rfl⟩

/-- Witness for C10 (amended) on a comma-free non-data-URL result string. -/
theorem handleUseResultAsInput_non_data_url_witness :
    (applyAll c10WitnessState (handleUseResultAsInput c10WitnessState)).selectedImage =
      some { base64 := (jsSplitComma "notadataurl")[1]?, mimeType := "image/png",
             url := "notadataurl" } ∧
    (applyAll c10WitnessState (handleUseResultAsInput c10WitnessState)).resultImage = none :=
  handleUseResultAsInput_non_data_url c10WitnessState "notadataurl" rfl (by decide) (by decide)
